import Mathlib

set_option maxHeartbeats 1000000
set_option maxRecDepth 100000

namespace Script

/-!
Verification development for the recipe-backend browser client
(`src/script.js`).  The JavaScript is shallowly embedded: every pure
transformation becomes a Lean function, the two network round-trips become
explicit environment parameters (the stage-1 response and a schedule of
stage-2 responses indexed by the attempt number), and the observable side
effects of one pipeline run (DOM writes, requests issued, sleeps, the
submit-button flag) are collected in an explicit trace record.
-/

/-! ### Backoff Executor — `withExponentialBackoff` (script.js lines 52-63)

```js
async function withExponentialBackoff(fn, maxRetries = 3) {
    for (let i = 0; i < maxRetries; i++) {
        try {
            return await fn();
        } catch (error) {
            if (i === maxRetries - 1) throw error;
            const delay = Math.pow(2, i) * 1000;
            await new Promise(resolve => setTimeout(resolve, delay));
        }
    }
}
```

The fallible asynchronous operation `fn` is modelled as a schedule
`Nat → Except ε α` giving the outcome of its `i`-th invocation (0-indexed).
The trace records the promise outcome (`Except.ok none` models resolving
with `undefined`, which happens when the loop body never runs), the number
of invocations of `fn`, and the list of `setTimeout` sleeps in ms.
-/

structure BackoffTrace (ε α : Type) where
  result : Except ε (Option α)
  calls : Nat
  delays : List Nat

/-- The loop of `withExponentialBackoff`: `i` is the current 0-indexed
attempt, the second argument is the number of remaining iterations
(`maxRetries - i`); `i === maxRetries - 1` holds exactly when one iteration
remains. -/
def backoffAux {ε α : Type} (fn : Nat → Except ε α) : Nat → Nat → BackoffTrace ε α
  | _, 0 => ⟨Except.ok none, 0, []⟩
  | i, n + 1 =>
    match fn i with
    | Except.ok a => ⟨Except.ok (some a), 1, []⟩
    | Except.error e =>
      if n = 0 then ⟨Except.error e, 1, []⟩
      else
        let rest := backoffAux fn (i + 1) n
        ⟨rest.result, rest.calls + 1, (2 ^ i * 1000) :: rest.delays⟩

/-- `withExponentialBackoff(fn, maxRetries)`; the source's default value for
`maxRetries` is 3, which call sites of the model pass explicitly.
`maxRetries` is an `Int` because the JavaScript parameter can be any number;
a run with a non-positive bound executes zero loop iterations. -/
def withExponentialBackoff {ε α : Type} (fn : Nat → Except ε α) (maxRetries : Int) :
    BackoffTrace ε α :=
  backoffAux fn 0 maxRetries.toNat

/-! ### Encoder — `fileToBase64` (script.js lines 9-16)

```js
async function fileToBase64(file) {
    return new Promise((resolve, reject) => {
        const reader = new FileReader();
        reader.readAsDataURL(file);
        reader.onload = () => resolve(reader.result.split(',')[1]);
        reader.onerror = reject;
    });
}
```

`reader.result` is the data URL of the file's bytes
(`data:<media-type>;base64,<payload>`); the function resolves with
`result.split(',')[1]`.  The model takes the data URL as input and applies
the same split/index.  `jsSplit` models `String.prototype.split` with a
single-character separator. -/

def splitCharAux (c : Char) : List Char → List Char → List String
  | [], acc => [String.mk acc.reverse]
  | x :: xs, acc =>
    if x = c then String.mk acc.reverse :: splitCharAux c xs []
    else splitCharAux c xs (x :: acc)

def jsSplit (s : String) (c : Char) : List String :=
  splitCharAux c s.data []

/-- `String.prototype.trim()`: strip leading and trailing whitespace. -/
def jsTrim (s : String) : String :=
  String.mk (((s.data.dropWhile Char.isWhitespace).reverse.dropWhile
    Char.isWhitespace).reverse)

/-- `x` begins with the characters of the first argument. -/
def leadsWith : List Char → List Char → Bool
  | [], _ => true
  | _ :: _, [] => false
  | a :: as, b :: bs => a == b && leadsWith as bs

/-- `String.prototype.startsWith(p)`. -/
def jsStartsWith (s p : String) : Bool :=
  leadsWith p.data s.data

def fileToBase64 (dataURL : String) : Option String :=
  (jsSplit dataURL ',')[1]?

/-! ### Renderer — `simpleMarkdownToHtml` (script.js lines 32-50)

```js
function simpleMarkdownToHtml(text) {
    return text
        .replace(/^### (.+)$/gm, '<h3 class="text-xl font-semibold mt-4 mb-2">$1</h3>')
        .replace(/^## (.+)$/gm, '<h2 class="text-2xl font-bold mt-6 mb-3 text-blue-800">$1</h2>')
        .replace(/^# (.+)$/gm, '<h1 class="text-3xl font-extrabold mt-8 mb-4">$1</h1>')
        .replace(/^\* (.+)$/gm, '<li class="ml-6">$1</li>')
        .replace(/(<li>.*<\/li>\n?)+/gs, '<ul class="list-disc my-2">$&</ul>')
        .replace(/^---$/gm, '<hr class="border-t-2 border-gray-200 my-6"/>')
        .replace(/\*\*(.+?)\*\*/g, '<strong>$1</strong>')
        .replace(/\*(.+?)\*/g, '<em>$1</em>')
        .split('\n')
        .map(line => line.trim() && !line.startsWith('<') ? `<p class="mb-2">${line}</p>` : line)
        .join('\n');
}
```

The `^…$`/`m` rewrites act independently on each `\n`-separated line
(`mapLines`); the emphasis rewrites scan left to right, `.+?` being the
shortest non-empty newline-free content (`replaceBold`, `replaceItalic`);
the list-wrapping rewrite is `wrapLis` below. -/

def mapLines (f : String → String) (text : String) : String :=
  String.intercalate "\n" ((jsSplit text '\n').map f)

/-- `^### (.+)$` (per line). -/
def h3Line (line : String) : String :=
  if jsStartsWith line "### " && decide (line.length > 4) then
    "<h3 class=\"text-xl font-semibold mt-4 mb-2\">" ++ line.drop 4 ++ "</h3>"
  else line

/-- `^## (.+)$` (per line). -/
def h2Line (line : String) : String :=
  if jsStartsWith line "## " && decide (line.length > 3) then
    "<h2 class=\"text-2xl font-bold mt-6 mb-3 text-blue-800\">" ++ line.drop 3 ++ "</h2>"
  else line

/-- `^# (.+)$` (per line). -/
def h1Line (line : String) : String :=
  if jsStartsWith line "# " && decide (line.length > 2) then
    "<h1 class=\"text-3xl font-extrabold mt-8 mb-4\">" ++ line.drop 2 ++ "</h1>"
  else line

/-- `^\* (.+)$` (per line). -/
def liLine (line : String) : String :=
  if jsStartsWith line "* " && decide (line.length > 2) then
    "<li class=\"ml-6\">" ++ line.drop 2 ++ "</li>"
  else line

/-- `^---$` (per line). -/
def hrLine (line : String) : String :=
  if line = "---" then "<hr class=\"border-t-2 border-gray-200 my-6\"/>" else line

/-- All indices (current position `i` onwards) at which `needle` occurs in
the remaining hay, the position one past the end included. -/
def occIdxsAux (needle : List Char) : List Char → Nat → List Nat
  | [], i => if leadsWith needle [] then [i] else []
  | x :: xs, i =>
    (if leadsWith needle (x :: xs) then [i] else []) ++ occIdxsAux needle xs (i + 1)

/-- All indices at which `needle` occurs in `hay`. -/
def occIdxs (needle hay : List Char) : List Nat :=
  occIdxsAux needle hay 0

/-- `.replace(/(<li>.*<\/li>\n?)+/gs, '<ul class="list-disc my-2">$&</ul>')`.
With the `s` flag the greedy `.*` crosses newlines, so when the pattern
matches at all the (single) match runs from the first literal `<li>` to the
end of the last `</li>` that starts at least four characters later, plus a
directly following newline when present; nothing after that match can match
again (no `</li>` remains).  When the string contains no literal `<li>` the
rewrite leaves it unchanged — note the `<li>` items produced by the
previous rewrite all read `<li class="ml-6">`. -/
def wrapLis (s : String) : String :=
  let cs := s.data
  match (occIdxs "<li>".data cs).head? with
  | none => s
  | some i =>
    match ((occIdxs "</li>".data cs).filter (fun j => i + 4 ≤ j)).getLast? with
    | none => s
    | some j =>
      let stop := if leadsWith ['\n'] (cs.drop (j + 5)) then j + 6 else j + 5
      String.mk (cs.take i) ++ "<ul class=\"list-disc my-2\">" ++
        String.mk ((cs.drop i).take (stop - i)) ++ "</ul>" ++ String.mk (cs.drop stop)

/-- Splits `l` as `content ++ '*' :: '*' :: rest` with `content` non-empty,
newline-free and minimal (the `(.+?)\*\*` part of the bold rewrite). -/
def splitAtCloseBold : List Char → Option (List Char × List Char)
  | [] => none
  | c :: rest =>
    if c = '\n' then none
    else
      match rest with
      | '*' :: '*' :: rest2 => some ([c], rest2)
      | _ =>
        match splitAtCloseBold rest with
        | some (content, rest2) => some (c :: content, rest2)
        | none => none

/-- Splits `l` as `content ++ '*' :: rest` with `content` non-empty,
newline-free and minimal (the `(.+?)\*` part of the italic rewrite). -/
def splitAtCloseItalic : List Char → Option (List Char × List Char)
  | [] => none
  | c :: rest =>
    if c = '\n' then none
    else
      match rest with
      | '*' :: rest2 => some ([c], rest2)
      | _ =>
        match splitAtCloseItalic rest with
        | some (content, rest2) => some (c :: content, rest2)
        | none => none

/-- `.replace(/\*\*(.+?)\*\*/g, '<strong>$1</strong>')`: left-to-right scan,
non-greedy content, resuming after each rewritten match.  The fuel starts at
the character count and only bounds the recursion (every step consumes at
least one character). -/
def replaceBoldAux : Nat → List Char → List Char
  | 0, l => l
  | fuel + 1, l =>
    match l with
    | '*' :: '*' :: rest =>
      match splitAtCloseBold rest with
      | some (content, rest2) =>
        "<strong>".data ++ content ++ "</strong>".data ++ replaceBoldAux fuel rest2
      | none => '*' :: '*' :: replaceBoldAux fuel rest
    | c :: rest => c :: replaceBoldAux fuel rest
    | [] => []

def replaceBold (s : String) : String :=
  String.mk (replaceBoldAux s.data.length s.data)

/-- `.replace(/\*(.+?)\*/g, '<em>$1</em>')`, same scanning discipline. -/
def replaceItalicAux : Nat → List Char → List Char
  | 0, l => l
  | fuel + 1, l =>
    match l with
    | '*' :: rest =>
      match splitAtCloseItalic rest with
      | some (content, rest2) =>
        "<em>".data ++ content ++ "</em>".data ++ replaceItalicAux fuel rest2
      | none => '*' :: replaceItalicAux fuel rest
    | c :: rest => c :: replaceItalicAux fuel rest
    | [] => []

def replaceItalic (s : String) : String :=
  String.mk (replaceItalicAux s.data.length s.data)

/-- The paragraph pass: `line.trim() && !line.startsWith('<')`. -/
def paraLine (line : String) : String :=
  if !(jsTrim line = "") && !(jsStartsWith line "<") then
    "<p class=\"mb-2\">" ++ line ++ "</p>"
  else line

def simpleMarkdownToHtml (text : String) : String :=
  let s1 := mapLines h3Line text
  let s2 := mapLines h2Line s1
  let s3 := mapLines h1Line s2
  let s4 := mapLines liLine s3
  let s5 := wrapLis s4
  let s6 := mapLines hrLine s5
  let s7 := replaceBold s6
  let s8 := replaceItalic s7
  mapLines paraLine s8

/-! ### Data model of the two responses and of one pipeline run

JavaScript `a || b` on a possibly-absent string field: `undefined` and the
empty string are both falsy. -/

def jsOrStr : Option String → String → String
  | none, d => d
  | some s, d => if s = "" then d else s

structure ImageFile where
  name : String
  bytes : List Nat
deriving DecidableEq

inductive FormValue
  | file (f : ImageFile)
  | text (s : String)
deriving DecidableEq

/-- Parsed JSON body of the stage-1 (ingredient-detection) response:
`{ success: bool, ingredients?: [string], error?: string }`.  `none` models
an absent field. -/
structure Stage1Body where
  success : Bool
  ingredients : Option (List String)
  error : Option String

/-- The stage-1 HTTP response.  `json` is the outcome of `response.json()`:
`Except.error msg` models a rejected parse (the thrown error's message). -/
structure Stage1Resp where
  ok : Bool
  status : Nat
  statusText : String
  json : Except String Stage1Body

/-- `{ title: string, ingredients: [string] }`; the code tolerates a missing
`ingredients` via `recipe.ingredients || []`. -/
structure Recipe where
  title : String
  ingredients : Option (List String)

/-- Parsed JSON body of the stage-2 (recipe-lookup) response. -/
structure Stage2Body where
  success : Bool
  recipes : Option (List Recipe)
  total_found : Option Nat
  error : Option String

structure Stage2Resp where
  ok : Bool
  statusText : String
  json : Except String Stage2Body

/-- One request issued to the recipe-lookup endpoint (script.js 137-145). -/
structure Stage2Request where
  url : String
  method : String
  headers : List (String × String)
  body : String

/-- `JSON.stringify({})`. -/
def jsonStringifyEmptyObject : String := "\x7b\x7d"

def recipesUrl : String := "http://localhost:5000/get_recipes"

/-- The request each stage-2 fetch attempt sends: POST to `recipesUrl` with
a JSON content type and the stringified empty object as body. -/
def stage2Request : Stage2Request :=
  { url := recipesUrl
    method := "POST"
    headers := [("Content-Type", "application/json")]
    body := jsonStringifyEmptyObject }

/-- Observable effects of one `getRecipes()` run.  `outputWrites` lists every
assignment to `outputDiv.innerHTML` in order (the last one is what the user
sees when the run terminates); `stage1Body` is the `FormData` sent to the
detection endpoint (`none` when no stage-1 request was issued);
`encoderCalls` counts invocations of `fileToBase64`; `stage2Requests` lists
the requests issued to the recipe-lookup endpoint; `delays` the backoff
sleeps in ms; the two button fields track `button.disabled`. -/
structure RunTrace where
  stage1Called : Bool
  stage1Body : Option (List (String × FormValue))
  encoderCalls : Nat
  stage2Requests : List Stage2Request
  delays : List Nat
  outputWrites : List String
  buttonEverDisabled : Bool
  buttonDisabledAtEnd : Bool

/-! ### The HTML fragments written by `getRecipes` (template literals kept
verbatim, including the indentation inside the backticks). -/

/-- `n` spaces. -/
def sp (n : Nat) : String := String.mk (List.replicate n ' ')

def validationMsg : String :=
  "<p class=\"text-red-600 font-medium\">⚠️ Please enter a prompt or upload an image.</p>"

def loadingHTML : String :=
  "<div class=\"text-center py-8\"><p class=\"text-lg text-blue-600\">🔍 Analyzing ingredients...</p></div>"

def noIngredientsMsg : String :=
  "<p class=\"text-yellow-600\">No ingredients detected. Try a different image or prompt.</p>"

/-- One entry of `ingredientsHTML` (script.js 119-121). -/
def ingredientItemHTML (ingredient : String) : String :=
  "<li class=\"py-2 px-3 bg-gray-50 rounded\">" ++ ingredient ++ "</li>"

def ingredientsHTML (l : List String) : String :=
  String.join (l.map ingredientItemHTML)

/-- Intermediate render after stage-1 success (script.js 123-131). -/
def intermediateHTML (count : Nat) (iHTML : String) : String :=
  "\n" ++ sp 16 ++ "<div class=\"space-y-4\">\n"
  ++ sp 20 ++ "<h3 class=\"text-xl font-semibold text-gray-800\">Detected Ingredients (" ++ toString count ++ "):</h3>\n"
  ++ sp 20 ++ "<ul class=\"space-y-2\">\n"
  ++ sp 24 ++ iHTML ++ "\n"
  ++ sp 20 ++ "</ul>\n"
  ++ sp 20 ++ "<p class=\"text-blue-600 font-medium\">Finding recipes...</p>\n"
  ++ sp 16 ++ "</div>\n"
  ++ sp 12

/-- Render when stage-2 succeeds with zero recipes (script.js 157-165). -/
def recipesEmptyHTML (count : Nat) (iHTML : String) : String :=
  "\n" ++ sp 24 ++ "<div class=\"space-y-4\">\n"
  ++ sp 28 ++ "<h3 class=\"text-xl font-semibold text-gray-800\">Detected Ingredients (" ++ toString count ++ "):</h3>\n"
  ++ sp 28 ++ "<ul class=\"space-y-2\">\n"
  ++ sp 32 ++ iHTML ++ "\n"
  ++ sp 28 ++ "</ul>\n"
  ++ sp 28 ++ "<p class=\"text-yellow-600 font-medium mt-4\">No recipes found matching your ingredients. Try adding more common ingredients!</p>\n"
  ++ sp 24 ++ "</div>\n"
  ++ sp 20

def recipeIngredientItem (ing : String) : String :=
  "<li class=\"text-sm text-gray-600\">• " ++ ing ++ "</li>"

/-- One recipe card (script.js 168-183): at most the first 8 ingredients,
plus a `+ N more ingredients` line when more than 8 exist. -/
def recipeCardHTML (idx : Nat) (recipe : Recipe) : String :=
  let recipeIngredients := recipe.ingredients.getD []
  let ingredientsListHTML := String.join ((recipeIngredients.take 8).map recipeIngredientItem)
  let moreCount := if recipeIngredients.length > 8 then recipeIngredients.length - 8 else 0
  "\n" ++ sp 28 ++ "<div class=\"border border-gray-200 rounded-lg p-4 bg-white shadow-sm\">\n"
  ++ sp 32 ++ "<h4 class=\"text-lg font-semibold text-blue-700 mb-2\">" ++ toString (idx + 1) ++ ". " ++ recipe.title ++ "</h4>\n"
  ++ sp 32 ++ "<ul class=\"space-y-1\">\n"
  ++ sp 36 ++ ingredientsListHTML ++ "\n"
  ++ sp 36 ++ (if moreCount > 0 then "<li class=\"text-sm text-gray-500 italic\">+ " ++ toString moreCount ++ " more ingredients</li>" else "") ++ "\n"
  ++ sp 32 ++ "</ul>\n"
  ++ sp 28 ++ "</div>\n"
  ++ sp 24

def recipesHTML (recipes : List Recipe) : String :=
  String.join (recipes.enum.map (fun p => recipeCardHTML p.1 p.2))

/-- `${recipesResult.total_found}` interpolates the literal `undefined` when
the field is absent. -/
def totalFoundStr : Option Nat → String
  | some n => toString n
  | none => "undefined"

/-- Final success render (script.js 186-197). -/
def successHTML (count : Nat) (iHTML : String) (tf : Option Nat) (rHTML : String) : String :=
  "\n" ++ sp 24 ++ "<div class=\"space-y-4\">\n"
  ++ sp 28 ++ "<h3 class=\"text-xl font-semibold text-gray-800\">Your Ingredients (" ++ toString count ++ "):</h3>\n"
  ++ sp 28 ++ "<ul class=\"space-y-2 mb-4\">\n"
  ++ sp 32 ++ iHTML ++ "\n"
  ++ sp 28 ++ "</ul>\n"
  ++ sp 28 ++ "<h3 class=\"text-xl font-semibold text-green-700\">Top 5 Recipes (from " ++ totalFoundStr tf ++ " matches):</h3>\n"
  ++ sp 28 ++ "<div class=\"space-y-3\">\n"
  ++ sp 32 ++ rHTML ++ "\n"
  ++ sp 28 ++ "</div>\n"
  ++ sp 24 ++ "</div>\n"
  ++ sp 20

/-- The catch-block render (script.js 208-219). -/
def errorHTML (message : String) : String :=
  "\n" ++ sp 12 ++ "<div class=\"text-red-600 p-4 bg-red-50 rounded-lg\">\n"
  ++ sp 16 ++ "<p class=\"font-medium mb-2\">❌ Error: " ++ message ++ "</p>\n"
  ++ sp 16 ++ "<p class=\"text-sm\">Troubleshooting tips:</p>\n"
  ++ sp 16 ++ "<ul class=\"text-sm list-disc ml-4 mt-1\">\n"
  ++ sp 20 ++ "<li>Make sure your Vercel backend is deployed</li>\n"
  ++ sp 20 ++ "<li>Check that API_URL points to the correct endpoint</li>\n"
  ++ sp 20 ++ "<li>Verify CORS is configured correctly in your backend</li>\n"
  ++ sp 20 ++ "<li>Check browser console for detailed error messages</li>\n"
  ++ sp 16 ++ "</ul>\n"
  ++ sp 12 ++ "</div>\n"
  ++ sp 8

/-! ### Pipeline Controller — `getRecipes` (script.js 67-225) -/

/-- The `FormData` built at script.js 87-93: the raw image file (when
present) under `image`, then the trimmed prompt (when non-empty) under
`prompt`. -/
def formDataOf (prompt : String) (imageFile : Option ImageFile) : List (String × FormValue) :=
  (match imageFile with
   | some f => [("image", FormValue.file f)]
   | none => [])
  ++ (if prompt ≠ "" then [("prompt", FormValue.text prompt)] else [])

/-- The trace of a run that stops at validation (script.js 76-79): the
warning is written, no request is issued, and the button is never touched
(the loading state at 82-84 is only set after validation passes). -/
def validationTrace : RunTrace :=
  { stage1Called := false
    stage1Body := none
    encoderCalls := 0
    stage2Requests := []
    delays := []
    outputWrites := [validationMsg]
    buttonEverDisabled := false
    buttonDisabledAtEnd := false }

/-- Assembles the trace of a run that passed validation and ended without an
exception: the writes are the loading state followed by `extraWrites`;
every stage-2 attempt sent the constant `stage2Request`; the `finally`
block re-enables the button. `fileToBase64` has no call site in
`getRecipes`, so `encoderCalls` is 0. -/
def runTraceOf (formData : List (String × FormValue)) (extraWrites : List String)
    (s2calls : Nat) (delays : List Nat) : RunTrace :=
  { stage1Called := true
    stage1Body := some formData
    encoderCalls := 0
    stage2Requests := List.replicate s2calls stage2Request
    delays := delays
    outputWrites := loadingHTML :: extraWrites
    buttonEverDisabled := true
    buttonDisabledAtEnd := false }

/-- Assembles the trace of a run whose `try` block threw `message`: the
catch block appends the error render, then `finally` re-enables the
button. -/
def runTraceErr (formData : List (String × FormValue)) (extraWrites : List String)
    (s2calls : Nat) (delays : List Nat) (message : String) : RunTrace :=
  runTraceOf formData (extraWrites ++ [errorHTML message]) s2calls delays

/-- Absent fields of a best-effort parse substitute: `.catch(() => ({}))`
yields the empty object, whose `success`, `ingredients` and `error` reads
are all `undefined`. -/
def emptyStage1Body : Stage1Body :=
  { success := false, ingredients := none, error := none }

/-- One run of `getRecipes()`.  Environment: `promptRaw` is the text-input
value (the code trims it), `imageFile` the selected file, `stage1` the
response of the single detection POST, and `stage2fetch` the outcome of the
`i`-th recipe-lookup fetch attempt — `Except.error msg` models a rejected
fetch (network failure), which is the only thing `withExponentialBackoff`
sees as a failure; an HTTP error response resolves the fetch promise and is
only inspected afterwards at `if (!recipesResponse.ok)`. -/
def getRecipes (promptRaw : String) (imageFile : Option ImageFile)
    (stage1 : Stage1Resp) (stage2fetch : Nat → Except String Stage2Resp) : RunTrace :=
  let prompt := jsTrim promptRaw
  if prompt = "" ∧ imageFile = none then
    validationTrace
  else
    let formData := formDataOf prompt imageFile
    if stage1.ok = false then
      let errorData := match stage1.json with
        | Except.ok b => b
        | Except.error _ => emptyStage1Body
      runTraceErr formData [] 0 []
        (jsOrStr errorData.error
          ("Server error: " ++ toString stage1.status ++ " " ++ stage1.statusText))
    else
      match stage1.json with
      | Except.error e => runTraceErr formData [] 0 [] e
      | Except.ok result =>
        if result.success && result.ingredients.isSome then
          let ingredientsList := result.ingredients.getD []
          if ingredientsList.length = 0 then
            runTraceOf formData [noIngredientsMsg] 0 []
          else
            let iHTML := ingredientsHTML ingredientsList
            let inter := intermediateHTML ingredientsList.length iHTML
            let bt := withExponentialBackoff stage2fetch 3
            match bt.result with
            | Except.error e => runTraceErr formData [inter] bt.calls bt.delays e
            | Except.ok none =>
              runTraceErr formData [inter] bt.calls bt.delays
                "TypeError: recipesResponse is undefined"
            | Except.ok (some resp) =>
              if resp.ok = false then
                runTraceErr formData [inter] bt.calls bt.delays
                  ("Recipe fetch failed: " ++ resp.statusText)
              else
                match resp.json with
                | Except.error e => runTraceErr formData [inter] bt.calls bt.delays e
                | Except.ok recipesResult =>
                  if recipesResult.success && recipesResult.recipes.isSome then
                    let recipes := recipesResult.recipes.getD []
                    if recipes.length = 0 then
                      runTraceOf formData
                        [inter, recipesEmptyHTML ingredientsList.length iHTML]
                        bt.calls bt.delays
                    else
                      runTraceOf formData
                        [inter,
                          successHTML ingredientsList.length iHTML
                            recipesResult.total_found (recipesHTML recipes)]
                        bt.calls bt.delays
                  else
                    runTraceErr formData [inter] bt.calls bt.delays
                      (jsOrStr recipesResult.error "Failed to get recipes")
        else
          runTraceErr formData [] 0 [] (jsOrStr result.error "Unknown error from backend")

/-! ### Substring utilities for stating render properties -/

/-- Number of (possibly overlapping) occurrences of `sub` in `s`. -/
def countSubstr (s sub : String) : Nat :=
  (occIdxs sub.data s.data).length

/-- `sub` occurs somewhere in `s`. -/
def hasSubstr (s sub : String) : Bool :=
  !(occIdxs sub.data s.data).isEmpty

/-- Index of the first occurrence of `sub` in `s` (one past the end when
absent). -/
def firstIdxOf (s sub : String) : Nat :=
  ((occIdxs sub.data s.data).head?).getD (s.data.length + 1)

/-! ### Concrete environments used by witnesses and counterexamples -/

def s1good : Stage1Resp :=
  { ok := true
    status := 200
    statusText := "OK"
    json := Except.ok { success := true, ingredients := some ["egg"], error := none } }

/-- A stage-2 response with a non-success HTTP status (the fetch promise
still resolves with it). -/
def badStage2 : Stage2Resp :=
  { ok := false, statusText := "Internal Server Error", json := Except.error "parse" }

def pancakes : Recipe :=
  { title := "Pancakes", ingredients := some ["egg", "flour", "milk"] }

def goodStage2Body : Stage2Body :=
  { success := true, recipes := some [pancakes], total_found := some 1, error := none }

def goodStage2 : Stage2Resp :=
  { ok := true, statusText := "OK", json := Except.ok goodStage2Body }

/-- Every stage-2 attempt resolves with the HTTP-error response. -/
def s2AlwaysBad : Nat → Except String Stage2Resp :=
  fun _ => Except.ok badStage2

/-- Every stage-2 attempt resolves successfully. -/
def s2AlwaysGood : Nat → Except String Stage2Resp :=
  fun _ => Except.ok goodStage2

/-- Attempts 1 and 2 (0-indexed 0 and 1) are rejected fetches; attempt 3
resolves successfully. -/
def s2FailFailOk : Nat → Except String Stage2Resp :=
  fun n =>
    if n = 0 then Except.error "ECONNREFUSED"
    else if n = 1 then Except.error "ECONNRESET"
    else Except.ok goodStage2

def f0 : ImageFile := { name := "pic.jpg", bytes := [1, 2, 3] }

/-- The stage-1 response of claim C5's scenario:
`{success: true, ingredients: ["egg", "flour"]}`. -/
def s1c5 : Stage1Resp :=
  { ok := true
    status := 200
    statusText := "OK"
    json := Except.ok { success := true, ingredients := some ["egg", "flour"], error := none } }

/-- The run of claim C5's scenario. -/
def c5run : RunTrace := getRecipes "food" none s1c5 s2AlwaysGood

/-- What the user sees when that run terminates. -/
def c5term : String := c5run.outputWrites.getLast?.getD ""

/-- An operation failing on its first attempt and succeeding afterwards. -/
def c3fn : Nat → Except String Nat :=
  fun j => if j = 0 then Except.error "boom" else Except.ok 7

/-- A successful stage-1 response carrying an empty ingredient list. -/
def s1empty : Stage1Resp :=
  { ok := true
    status := 200
    statusText := "OK"
    json := Except.ok { success := true, ingredients := some [], error := none } }

/-! ### Theorems -/

theorem BackoffTrace.ext_iff {ε α : Type} (t u : BackoffTrace ε α) :
    t = u ↔ t.result = u.result ∧ t.calls = u.calls ∧ t.delays = u.delays := by
  constructor
  · intro h; subst h; exact ⟨rfl, rfl, rfl⟩
  · intro h; cases t; cases u; simp_all

theorem backoffAux_calls_le {ε α : Type} (fn : Nat → Except ε α) :
    ∀ (n i : Nat), (backoffAux fn i n).calls ≤ n := by
  intro n
  induction n with
  | zero => intro i; simp [backoffAux]
  | succ n ih =>
    intro i
    simp only [backoffAux]
    cases hfi : fn i with
    | ok a => simp
    | error e =>
      by_cases hn : n = 0
      · simp [hn]
      · simp only [if_neg hn]
        exact Nat.succ_le_succ (ih (i + 1))

/-- If attempts `i, …, i+k-1` fail and attempt `i+k` succeeds (within the
remaining budget `n`), the loop returns the successful value, makes `k+1`
calls, and sleeps `2^j * 1000` ms after each failed attempt `j`. -/
theorem backoffAux_success {ε α : Type} (fn : Nat → Except ε α) :
    ∀ (k i n : Nat) (a : α), k < n →
      (∀ j, j < k → ∃ e, fn (i + j) = Except.error e) →
      fn (i + k) = Except.ok a →
      backoffAux fn i n =
        ⟨Except.ok (some a), k + 1, (List.range' i k).map (fun j => 2 ^ j * 1000)⟩ := by
  intro k
  induction k with
  | zero =>
    intro i n a hk _ hok
    match n, hk with
    | n + 1, _ =>
      rw [Nat.add_zero] at hok
      simp [backoffAux, hok]
  | succ k ih =>
    intro i n a hk hfail hok
    match n, hk with
    | n + 1, hk =>
      obtain ⟨e, he⟩ := hfail 0 (Nat.succ_pos k)
      rw [Nat.add_zero] at he
      have hn : ¬ n = 0 := by omega
      have hrec := ih (i + 1) n a (by omega)
        (fun j hj => by
          obtain ⟨e2, he2⟩ := hfail (j + 1) (by omega)
          exact ⟨e2, by rw [show i + 1 + j = i + (j + 1) by omega]; exact he2⟩)
        (by rw [show i + 1 + k = i + (k + 1) by omega]; exact hok)
      simp only [backoffAux, he, if_neg hn, hrec]
      rw [List.range'_succ]
      simp

/-- If all `n` attempts fail, the final error propagates, `n` calls are
made, and a sleep follows every attempt but the last. -/
theorem backoffAux_allFail {ε α : Type} (fn : Nat → Except ε α) :
    ∀ (n i : Nat) (e : ε), 0 < n →
      (∀ j, j < n - 1 → ∃ e2, fn (i + j) = Except.error e2) →
      fn (i + (n - 1)) = Except.error e →
      backoffAux fn i n =
        ⟨Except.error e, n, (List.range' i (n - 1)).map (fun j => 2 ^ j * 1000)⟩ := by
  intro n
  induction n with
  | zero => intro i e h; exact absurd h (by omega)
  | succ n ih =>
    intro i e _ hfail hlast
    by_cases hn : n = 0
    · subst hn
      rw [show 1 - 1 = 0 by omega, Nat.add_zero] at hlast
      simp [backoffAux, hlast]
    · obtain ⟨e2, he2⟩ := hfail 0 (by omega)
      rw [Nat.add_zero] at he2
      have hrec := ih (i + 1) e (by omega)
        (fun j hj => by
          obtain ⟨e3, he3⟩ := hfail (j + 1) (by omega)
          exact ⟨e3, by rw [show i + 1 + j = i + (j + 1) by omega]; exact he3⟩)
        (by rw [show i + 1 + (n - 1) = i + (n + 1 - 1) by omega]; exact hlast)
      simp only [backoffAux, he2, if_neg hn, hrec]
      rw [show n + 1 - 1 = (n - 1) + 1 by omega, List.range'_succ]
      simp [BackoffTrace.ext_iff]

theorem splitCharAux_sep (c : Char) :
    ∀ (xs ys acc : List Char), (∀ x ∈ xs, x ≠ c) →
      splitCharAux c (xs ++ c :: ys) acc =
        String.mk (acc.reverse ++ xs) :: splitCharAux c ys [] := by
  intro xs
  induction xs with
  | nil => intro ys acc _; simp [splitCharAux]
  | cons x xs ih =>
    intro ys acc h
    have hx : ¬ x = c := h x (List.mem_cons_self x xs)
    simp only [List.cons_append, splitCharAux, if_neg hx, List.append_eq]
    rw [ih ys (x :: acc) (fun y hy => h y (List.mem_cons_of_mem x hy))]
    simp

theorem splitCharAux_nosep (c : Char) :
    ∀ (ys acc : List Char), (∀ y ∈ ys, y ≠ c) →
      splitCharAux c ys acc = [String.mk (acc.reverse ++ ys)] := by
  intro ys
  induction ys with
  | nil => intro acc _; simp [splitCharAux]
  | cons y ys ih =>
    intro acc h
    have hy : ¬ y = c := h y (List.mem_cons_self y ys)
    simp only [splitCharAux, if_neg hy]
    rw [ih (y :: acc) (fun z hz => h z (List.mem_cons_of_mem y hz))]
    simp

/-- On a data URL `p ++ "," ++ b` whose media-type part `p` and payload `b`
are comma-free (base64 payloads are), `fileToBase64` returns exactly the
part after the first comma, i.e. the prefix up to and including the first
comma is removed. -/
theorem fileToBase64_strips (p b : String)
    (hp : ∀ x ∈ p.data, x ≠ ',') (hb : ∀ x ∈ b.data, x ≠ ',') :
    fileToBase64 (p ++ "," ++ b) = some b := by
  unfold fileToBase64 jsSplit
  have hd : (p ++ "," ++ b).data = p.data ++ ',' :: b.data := by
    show (p.data ++ ",".data) ++ b.data = p.data ++ ',' :: b.data
    simp [String.data]
  rw [hd, splitCharAux_sep ',' p.data b.data [] hp,
    splitCharAux_nosep ',' b.data [] hb]
  simp


/-- Every run either stops at validation or yields a trace assembled by
`runTraceOf` from the `FormData` of the trimmed prompt and the image. -/
theorem getRecipes_shape (pr : String) (f : Option ImageFile) (s1 : Stage1Resp)
    (s2f : Nat → Except String Stage2Resp) :
    (jsTrim pr = "" ∧ f = none) ∧ getRecipes pr f s1 s2f = validationTrace
  ∨ ¬(jsTrim pr = "" ∧ f = none) ∧
      ∃ ew n d, getRecipes pr f s1 s2f = runTraceOf (formDataOf (jsTrim pr) f) ew n d := by
  by_cases h : jsTrim pr = "" ∧ f = none
  · left
    refine ⟨h, ?_⟩
    simp only [getRecipes]
    rw [if_pos h]
  · right
    refine ⟨h, ?_⟩
    simp only [getRecipes, runTraceErr]
    rw [if_neg h]
    repeat' split
    all_goals exact ⟨_, _, _, rfl⟩

/-- C3: for every fallible operation and every `maxAttempts ≥ 1` the
executor invokes the operation at most `maxAttempts` times; if the first
`k` attempts fail and attempt `k` succeeds it returns that attempt's result
after sleeping `2^i * 1000` ms after each failed attempt `i`; if all
attempts fail the final attempt's error propagates unchanged. -/
theorem c3_backoff_executor {ε α : Type} (fn : Nat → Except ε α) (m : Nat) (hm : 1 ≤ m) :
    (withExponentialBackoff fn (m : Int)).calls ≤ m ∧
    (∀ (k : Nat) (a : α), k < m → (∀ j, j < k → ∃ e, fn j = Except.error e) →
      fn k = Except.ok a →
      withExponentialBackoff fn (m : Int) =
        ⟨Except.ok (some a), k + 1, (List.range k).map (fun i => 2 ^ i * 1000)⟩) ∧
    (∀ e : ε, (∀ j, j < m - 1 → ∃ e2, fn j = Except.error e2) →
      fn (m - 1) = Except.error e →
      withExponentialBackoff fn (m : Int) =
        ⟨Except.error e, m, (List.range (m - 1)).map (fun i => 2 ^ i * 1000)⟩) := by
  have hcast : ((m : Int)).toNat = m := by simp
  unfold withExponentialBackoff
  rw [hcast]
  refine ⟨backoffAux_calls_le fn m 0, ?_, ?_⟩
  · intro k a hk hfail hok
    rw [backoffAux_success fn k 0 m a hk (by simpa using hfail) (by simpa using hok)]
    rw [List.range_eq_range']
  · intro e hfail hlast
    rw [backoffAux_allFail fn m 0 e (by omega) (by simpa using hfail) (by simpa using hlast)]
    rw [List.range_eq_range']

/-- Witness for C3: a concrete operation failing on attempt 0 and
succeeding on attempt 1, run with `maxAttempts = 2`: two invocations, one
1000 ms sleep, the successful value returned. -/
theorem c3_witness :
    withExponentialBackoff c3fn ((2 : Nat) : Int) = ⟨Except.ok (some 7), 2, [1000]⟩ :=
  (c3_backoff_executor c3fn 2 (by omega)).2.1 1 7 (by omega)
    (fun j hj => by
      have hj0 : j = 0 := Nat.lt_one_iff.mp hj
      subst hj0
      exact ⟨"boom", rfl⟩)
    rfl

/-- C10: with `maxAttempts ≤ 0` the loop body never runs: the operation is
never invoked and the call resolves with `undefined` instead of raising. -/
theorem c10_nonpositive_attempts {ε α : Type} (fn : Nat → Except ε α) (m : Int)
    (hm : m ≤ 0) :
    withExponentialBackoff fn m = ⟨Except.ok none, 0, []⟩ := by
  unfold withExponentialBackoff
  rw [Int.toNat_of_nonpos hm]
  rfl

/-- Witness for C10 at `maxAttempts = 0` and an always-failing operation. -/
theorem c10_witness :
    withExponentialBackoff (fun _ => (Except.error "boom" : Except String Nat)) 0 =
      ⟨Except.ok none, 0, []⟩ :=
  c10_nonpositive_attempts (fun _ => Except.error "boom") 0 (by omega)

/-- C6: with an empty (after trimming) prompt and no image the run writes
the validation warning and terminates; neither the stage-1 nor the stage-2
request is ever issued. -/
theorem c6_validation_no_network (pr : String) (f : Option ImageFile) (s1 : Stage1Resp)
    (s2f : Nat → Except String Stage2Resp) (h : jsTrim pr = "" ∧ f = none) :
    (getRecipes pr f s1 s2f).stage1Called = false ∧
    (getRecipes pr f s1 s2f).stage1Body = none ∧
    (getRecipes pr f s1 s2f).stage2Requests = [] ∧
    (getRecipes pr f s1 s2f).outputWrites = [validationMsg] := by
  have hv : getRecipes pr f s1 s2f = validationTrace := by
    simp only [getRecipes]
    rw [if_pos h]
  rw [hv]
  exact ⟨rfl, rfl, rfl, rfl⟩

/-- Witness for C6 at the empty prompt and no image. -/
theorem c6_witness :
    (getRecipes "" none s1good s2AlwaysGood).stage1Called = false ∧
    (getRecipes "" none s1good s2AlwaysGood).stage1Body = none ∧
    (getRecipes "" none s1good s2AlwaysGood).stage2Requests = [] ∧
    (getRecipes "" none s1good s2AlwaysGood).outputWrites = [validationMsg] :=
  c6_validation_no_network "" none s1good s2AlwaysGood ⟨rfl, rfl⟩

/-- C7: a successful stage-1 response with an empty ingredient array makes
the run terminate with the no-ingredients notice, and the stage-2
recipe-lookup request is never issued. -/
theorem c7_empty_ingredients_no_stage2 (pr : String) (f : Option ImageFile)
    (s1 : Stage1Resp) (s2f : Nat → Except String Stage2Resp) (b : Stage1Body)
    (hv : ¬(jsTrim pr = "" ∧ f = none)) (hok : s1.ok = true)
    (hj : s1.json = Except.ok b) (hs : b.success = true) (hi : b.ingredients = some []) :
    (getRecipes pr f s1 s2f).outputWrites = [loadingHTML, noIngredientsMsg] ∧
    (getRecipes pr f s1 s2f).stage2Requests = [] := by
  simp only [getRecipes]
  rw [if_neg hv, hok, hj]
  simp [hs, hi, runTraceOf]

/-- Witness for C7 at a concrete run whose stage-1 response carries an
empty ingredient list. -/
theorem c7_witness :
    (getRecipes "x" none s1empty s2AlwaysGood).outputWrites =
        [loadingHTML, noIngredientsMsg] ∧
    (getRecipes "x" none s1empty s2AlwaysGood).stage2Requests = [] :=
  c7_empty_ingredients_no_stage2 "x" none s1empty s2AlwaysGood
    { success := true, ingredients := some [], error := none }
    (by decide) rfl rfl rfl rfl

/-- Every request a run ever sends to the recipe-lookup endpoint is the
constant `stage2Request`. -/
theorem stage2Requests_const (pr : String) (f : Option ImageFile) (s1 : Stage1Resp)
    (s2f : Nat → Except String Stage2Resp) (r : Stage2Request)
    (hr : r ∈ (getRecipes pr f s1 s2f).stage2Requests) : r = stage2Request := by
  rcases getRecipes_shape pr f s1 s2f with ⟨_, he⟩ | ⟨_, ew, n, d, he⟩
  · rw [he] at hr
    simp [validationTrace] at hr
  · rw [he] at hr
    simp only [runTraceOf] at hr
    exact List.eq_of_mem_replicate hr

/-- C8: any two runs that issue recipe-lookup requests send identical
bodies, namely the stringified empty JSON object — whatever the prompts,
images, or detected ingredient lists were. -/
theorem c8_stage2_body_constant
    (pr1 : String) (f1 : Option ImageFile) (s11 : Stage1Resp)
    (s2f1 : Nat → Except String Stage2Resp)
    (pr2 : String) (f2 : Option ImageFile) (s12 : Stage1Resp)
    (s2f2 : Nat → Except String Stage2Resp)
    (r1 r2 : Stage2Request)
    (h1 : r1 ∈ (getRecipes pr1 f1 s11 s2f1).stage2Requests)
    (h2 : r2 ∈ (getRecipes pr2 f2 s12 s2f2).stage2Requests) :
    r1.body = jsonStringifyEmptyObject ∧ r1.body = r2.body ∧
    r1.url = recipesUrl ∧ r1.method = "POST" := by
  rw [stage2Requests_const pr1 f1 s11 s2f1 r1 h1,
    stage2Requests_const pr2 f2 s12 s2f2 r2 h2]
  exact ⟨rfl, rfl, rfl, rfl⟩

/-- Witness for C8: two concrete runs with different prompts, both reaching
stage 2. -/
theorem c8_witness :
    stage2Request.body = jsonStringifyEmptyObject ∧
    stage2Request.body = stage2Request.body ∧
    stage2Request.url = recipesUrl ∧ stage2Request.method = "POST" :=
  c8_stage2_body_constant "x" none s1good s2AlwaysGood "pasta" none s1good s2AlwaysGood
    stage2Request stage2Request
    (by
      rw [show (getRecipes "x" none s1good s2AlwaysGood).stage2Requests =
        [stage2Request] from rfl]
      exact List.mem_singleton.mpr rfl)
    (by
      rw [show (getRecipes "pasta" none s1good s2AlwaysGood).stage2Requests =
        [stage2Request] from rfl]
      exact List.mem_singleton.mpr rfl)

/-- C9 (amended): the busy flag is set only after validation passes (not on
the `Terminal(ValidationFailed)` path, where it is never touched), and at
the end of every run — success, failure, or validation stop — the `finally`
block has left the control enabled, so it is never stuck disabled. -/
theorem c9_amended (pr : String) (f : Option ImageFile) (s1 : Stage1Resp)
    (s2f : Nat → Except String Stage2Resp) :
    (getRecipes pr f s1 s2f).buttonDisabledAtEnd = false ∧
    ((getRecipes pr f s1 s2f).buttonEverDisabled = true ↔
      ¬(jsTrim pr = "" ∧ f = none)) := by
  rcases getRecipes_shape pr f s1 s2f with ⟨h, he⟩ | ⟨h, ew, n, d, he⟩
  · rw [he]
    exact ⟨rfl, by simp [validationTrace, h]⟩
  · rw [he]
    exact ⟨rfl, by simp [runTraceOf, h]⟩

/-- C9 (counterexample): on the empty-input run the submit control is never
disabled at any point, refuting that every run sets the busy flag on
entering validation. -/
theorem c9_counterexample :
    (getRecipes "" none s1good s2AlwaysGood).buttonEverDisabled = false := rfl

/-- C1 (amended): a non-success HTTP status of a stage-2 response is not a
failure for the Backoff Executor (the fetch promise resolved): the executor
returns after the first such attempt and the pipeline immediately fails
with `Recipe fetch failed: <statusText>`.  Only rejected fetches are
retried: if attempts 1 and 2 reject and attempt 3 resolves successfully,
the fetch is invoked exactly 3 times (after 1000 ms and 2000 ms sleeps) and
the attempt-3 result feeds the success render. -/
theorem c1_amended :
    (∀ (pr : String) (f : Option ImageFile) (s1 : Stage1Resp)
        (s2f : Nat → Except String Stage2Resp) (b : Stage1Body) (ings : List String)
        (resp : Stage2Resp),
      ¬(jsTrim pr = "" ∧ f = none) → s1.ok = true → s1.json = Except.ok b →
      b.success = true → b.ingredients = some ings → ings ≠ [] →
      s2f 0 = Except.ok resp → resp.ok = false →
      (getRecipes pr f s1 s2f).stage2Requests.length = 1 ∧
      (getRecipes pr f s1 s2f).delays = [] ∧
      (getRecipes pr f s1 s2f).outputWrites =
        [loadingHTML, intermediateHTML ings.length (ingredientsHTML ings),
          errorHTML ("Recipe fetch failed: " ++ resp.statusText)]) ∧
    (∀ (pr : String) (f : Option ImageFile) (s1 : Stage1Resp)
        (s2f : Nat → Except String Stage2Resp) (b : Stage1Body) (ings : List String)
        (e1 e2 : String) (resp : Stage2Resp) (rb : Stage2Body) (rs : List Recipe),
      ¬(jsTrim pr = "" ∧ f = none) → s1.ok = true → s1.json = Except.ok b →
      b.success = true → b.ingredients = some ings → ings ≠ [] →
      s2f 0 = Except.error e1 → s2f 1 = Except.error e2 → s2f 2 = Except.ok resp →
      resp.ok = true → resp.json = Except.ok rb → rb.success = true →
      rb.recipes = some rs → rs ≠ [] →
      (getRecipes pr f s1 s2f).stage2Requests.length = 3 ∧
      (getRecipes pr f s1 s2f).delays = [1000, 2000] ∧
      (getRecipes pr f s1 s2f).outputWrites =
        [loadingHTML, intermediateHTML ings.length (ingredientsHTML ings),
          successHTML ings.length (ingredientsHTML ings) rb.total_found
            (recipesHTML rs)]) := by
  constructor
  · intro pr f s1 s2f b ings resp hv hok hj hs hi hne h0 hrok
    have hbt : withExponentialBackoff s2f 3 = ⟨Except.ok (some resp), 1, []⟩ := by
      have h := backoffAux_success s2f 0 0 3 resp (by omega)
        (fun j hj => absurd hj (Nat.not_lt_zero j)) (by simpa using h0)
      unfold withExponentialBackoff
      rw [show ((3 : Int)).toNat = 3 from rfl, h]
      rfl
    simp only [getRecipes]
    rw [if_neg hv, hok, hj]
    simp [hs, hi, List.length_eq_zero, hne, hbt, hrok, runTraceErr, runTraceOf]
  · intro pr f s1 s2f b ings e1 e2 resp rb rs hv hok hj hs hi hne h0 h1 h2 hrok hrj
      hrs hrr hrne
    have hbt : withExponentialBackoff s2f 3 =
        ⟨Except.ok (some resp), 3, [1000, 2000]⟩ := by
      have h := backoffAux_success s2f 2 0 3 resp (by omega)
        (fun j hj => by
          interval_cases j
          · exact ⟨e1, by simpa using h0⟩
          · exact ⟨e2, by simpa using h1⟩)
        (by simpa using h2)
      unfold withExponentialBackoff
      rw [show ((3 : Int)).toNat = 3 from rfl, h]
      rfl
    simp only [getRecipes]
    rw [if_neg hv, hok, hj]
    simp [hs, hi, List.length_eq_zero, hne, hbt, hrok, hrj, hrs, hrr, hrne,
      runTraceErr, runTraceOf]

/-- C1 (counterexample): stage-1 succeeds and every stage-2 fetch resolves
with a non-success HTTP status.  The claim predicts the Backoff Executor
retries the operation (3 invocations) before the failure becomes terminal;
the code invokes it exactly once, sleeps never, and fails immediately. -/
theorem c1_counterexample :
    (getRecipes "tomato" none s1good s2AlwaysBad).stage2Requests.length = 1 ∧
    (getRecipes "tomato" none s1good s2AlwaysBad).delays = [] ∧
    (getRecipes "tomato" none s1good s2AlwaysBad).outputWrites.getLast? =
      some (errorHTML "Recipe fetch failed: Internal Server Error") :=
  ⟨rfl, rfl, rfl⟩

/-- Witness for C1 (amended), instantiating both halves with concrete
environments. -/
theorem c1_witness :
    ((getRecipes "tomato" none s1good s2AlwaysBad).stage2Requests.length = 1 ∧
     (getRecipes "tomato" none s1good s2AlwaysBad).delays = [] ∧
     (getRecipes "tomato" none s1good s2AlwaysBad).outputWrites =
       [loadingHTML, intermediateHTML 1 (ingredientsHTML ["egg"]),
         errorHTML ("Recipe fetch failed: " ++ badStage2.statusText)]) ∧
    ((getRecipes "x" none s1good s2FailFailOk).stage2Requests.length = 3 ∧
     (getRecipes "x" none s1good s2FailFailOk).delays = [1000, 2000] ∧
     (getRecipes "x" none s1good s2FailFailOk).outputWrites =
       [loadingHTML, intermediateHTML 1 (ingredientsHTML ["egg"]),
         successHTML 1 (ingredientsHTML ["egg"]) goodStage2Body.total_found
           (recipesHTML [pancakes])]) :=
  ⟨c1_amended.1 "tomato" none s1good s2AlwaysBad
      { success := true, ingredients := some ["egg"], error := none } ["egg"] badStage2
      (by decide) rfl rfl rfl rfl (by decide) rfl rfl,
    c1_amended.2 "x" none s1good s2FailFailOk
      { success := true, ingredients := some ["egg"], error := none } ["egg"]
      "ECONNREFUSED" "ECONNRESET" goodStage2 goodStage2Body [pancakes]
      (by decide) rfl rfl rfl rfl (by decide) rfl rfl rfl rfl rfl rfl rfl (by simp)⟩

/-- C2 (amended): the Controller never invokes the Encoder — the stage-1
`FormData` carries the raw file under `image` (plus the trimmed prompt when
non-empty) — while `fileToBase64` itself, were it called on the file's data
URL, would indeed return the textual base64 payload with everything up to
and including the first comma removed. -/
theorem c2_amended :
    (∀ (pr : String) (f : ImageFile) (s1 : Stage1Resp)
        (s2f : Nat → Except String Stage2Resp),
      (getRecipes pr (some f) s1 s2f).encoderCalls = 0 ∧
      (getRecipes pr (some f) s1 s2f).stage1Body =
        some (formDataOf (jsTrim pr) (some f))) ∧
    (∀ p b : String, (∀ x ∈ p.data, x ≠ ',') → (∀ x ∈ b.data, x ≠ ',') →
      fileToBase64 (p ++ "," ++ b) = some b) := by
  constructor
  · intro pr f s1 s2f
    rcases getRecipes_shape pr (some f) s1 s2f with ⟨⟨_, hq⟩, _⟩ | ⟨_, ew, n, d, he⟩
    · exact absurd hq (by simp)
    · rw [he]
      exact ⟨rfl, rfl⟩
  · exact fileToBase64_strips

/-- Witness for C2 (amended) at a concrete image-only run and a concrete
data URL. -/
theorem c2_witness :
    ((getRecipes "" (some f0) s1good s2AlwaysGood).encoderCalls = 0 ∧
     (getRecipes "" (some f0) s1good s2AlwaysGood).stage1Body =
       some (formDataOf (jsTrim "") (some f0))) ∧
    fileToBase64 ("data:image/png;base64" ++ "," ++ "aGVsbG8=") =
      some "aGVsbG8=" :=
  ⟨c2_amended.1 "" f0 s1good s2AlwaysGood,
    c2_amended.2 "data:image/png;base64" "aGVsbG8=" (by decide) (by decide)⟩

/-- C2 (counterexample): an image-only run invokes the Encoder zero times
and submits the raw file — not a base64 encoding — to stage 1. -/
theorem c2_counterexample :
    (getRecipes "" (some f0) s1good s2AlwaysGood).encoderCalls = 0 ∧
    (getRecipes "" (some f0) s1good s2AlwaysGood).stage1Body =
      some [("image", FormValue.file f0)] :=
  ⟨rfl, rfl⟩

/-- C4: on `"## Title\n* a\n* b\n**bold**"` the transform yields the `h2`
heading for Title, the two `li` items and the `strong` span, but no `ul`
list container at all: the wrapping rewrite only matches a bare `<li>`,
which the item rewrite (emitting `<li class="ml-6">`) never produces. -/
theorem c4_markdown_list_unwrapped :
    simpleMarkdownToHtml "## Title\n* a\n* b\n**bold**" =
      "<h2 class=\"text-2xl font-bold mt-6 mb-3 text-blue-800\">Title</h2>\n" ++
        "<li class=\"ml-6\">a</li>\n<li class=\"ml-6\">b</li>\n<strong>bold</strong>" ∧
    hasSubstr (simpleMarkdownToHtml "## Title\n* a\n* b\n**bold**") "<ul" = false :=
  ⟨rfl, rfl⟩

/-- C5 (counterexample): the terminal render of the claim's scenario never
contains a "Detected Ingredients" heading — the final success markup titles
the ingredient list "Your Ingredients" (the "Detected Ingredients" heading
only appears in the intermediate render, which the final write replaces). -/
theorem c5_counterexample :
    hasSubstr c5term "Detected Ingredients" = false := rfl

/-- C5 (amended): in the claim's scenario the run writes three renders; the
intermediate one shows "Detected Ingredients (2):"; the terminal one shows
"Your Ingredients (2):" followed by "Top 5 Recipes (from 1 matches):" and
exactly one recipe card with exactly 3 ingredient lines and no "+N more"
truncation line. -/
theorem c5_amended_render :
    c5run.outputWrites.length = 3 ∧
    hasSubstr (c5run.outputWrites[1]?.getD "") "Detected Ingredients (2):" = true ∧
    hasSubstr c5term "Your Ingredients (2):" = true ∧
    hasSubstr c5term "Top 5 Recipes (from 1 matches):" = true ∧
    countSubstr c5term "<div class=\"border border-gray-200" = 1 ∧
    countSubstr c5term "<li class=\"text-sm text-gray-600\">" = 3 ∧
    countSubstr c5term "more ingredients" = 0 ∧
    firstIdxOf c5term "Your Ingredients (2):" <
      firstIdxOf c5term "Top 5 Recipes (from 1 matches):" := by
  refine ⟨rfl, rfl, rfl, rfl, rfl, rfl, rfl, ?_⟩
  decide

end Script


